import Mathlib

/-!
Verification of the lazy writer of the cache subsystem (lazyrite.c).

The definitions below are a shallow embedding of CcScheduleLazyWriteScan,
CcLazyWriteScan, CcPostWorkQueue and CcWorkerThread.  C ULONG values are
natural numbers reduced mod 2 ^ 32 at every operation where overflow can
occur.  External collaborators (CcCanIWrite, CcWriteBehind,
CcAllocateWorkQueueEntry, CcPostDeferredWrites, KeSetTimer) are modelled as
oracles: per-stream Booleans, per-entry status fields, an allocation oracle
indexed by call number, and a timer slot.
-/

namespace LazyRite

/-- Modulus of the 32-bit unsigned integers (C ULONG). -/
def U32 : Nat := 2 ^ 32

/-- Flag bits of a SHARED_CACHE_MAP read by the lazy writer, one Boolean per
bit of the Flags word. -/
structure ScmFlags where
  writeQueued : Bool
  isCursor : Bool
  modifiedWriteDisabled : Bool
  waitingForTeardown : Bool
  deriving DecidableEq, Repr

/-- Shallow embedding of the fields of a SHARED_CACHE_MAP that CcLazyWriteScan
reads and writes.  foTemporaryFile models FO_TEMPORARY_FILE on the attached
file object, and canIWrite models the answer of the external call
CcCanIWrite(FileObject, WRITE_CHARGE_THRESHOLD, FALSE, MAXUCHAR) for this
stream during this tick. -/
structure SharedCacheMap where
  flags : ScmFlags
  foTemporaryFile : Bool
  dirtyPages : Nat
  openCount : Nat
  fileSizeQuadPart : Int
  lazyWritePassCount : Nat
  pagesToWrite : Nat
  canIWrite : Bool
  deriving DecidableEq, Repr

/-- System-wide constants read by the scan.  maxWriteBehindPages models
MAX_WRITE_BEHIND / PAGE_SIZE and smallSystem models the comparison
CcCapturedSystemSize == MmSmallSystem; lazyWriterMaxAgeTarget and
dirtyPageTarget model LAZY_WRITER_MAX_AGE_TARGET and CcDirtyPageTarget.
The header cc.h defining the numeric values is not among the sources, so
they stay parameters; the spec fixes age_target = 8. -/
structure ScanEnv where
  smallSystem : Bool
  maxWriteBehindPages : Nat
  lazyWriterMaxAgeTarget : Nat
  dirtyPageTarget : Nat
  deriving DecidableEq, Repr

/-- The Function tags of a WORK_QUEUE_ENTRY. -/
inductive CcFunctionKind
  | readAhead
  | writeBehind
  | eventSet
  | lazyWriteScan
  deriving DecidableEq, Repr

/-- A work queue entry.  tag identifies the entry; wbSuccess models the status
the external collaborator CcWriteBehind reports when a worker executes the
entry. -/
structure WorkItem where
  fn : CcFunctionKind
  tag : Nat := 0
  wbSuccess : Bool := true
  deriving DecidableEq, Repr

/-- The two worker queues CcExpressWorkQueue and CcRegularWorkQueue. -/
inductive QueueId
  | express
  | regular
  deriving DecidableEq, Repr

/-- The three timer delays CcNoDelay, CcFirstDelay and CcIdleDelay. -/
inductive Delay
  | noDelay
  | firstDelay
  | idleDelay
  deriving DecidableEq, Repr

/-- Observable actions of CcScheduleLazyWriteScan, in program order: writing
LazyWriter.ScanActive and arming the timer via KeSetTimer. -/
inductive SchedAction
  | setActive
  | armTimer (d : Delay)
  deriving DecidableEq, Repr

/-- Global lazy writer state under the master lock, together with the scan
timer slot (KeSetTimer on an armed timer re-arms it, hence a single Option
slot).  dirtyList holds the streams of CcDirtySharedCacheMapList in circular
order starting immediately after the cursor CcLazyWriterCursor. -/
structure ScanGlobals where
  totalDirtyPages : Nat
  dirtyPagesLastScan : Nat
  pagesWrittenLastTime : Nat
  pagesYetToWrite : Nat
  otherWork : Bool
  scanActive : Bool
  timer : Option Delay
  postTickQueue : List WorkItem
  regularQueue : List WorkItem
  expressQueue : List WorkItem
  deferredWritesNonEmpty : Bool
  dirtyList : List SharedCacheMap
  deriving DecidableEq, Repr

/-- CcScheduleLazyWriteScan, lazyrite.c lines 27-51.  Returns the new state
and the ordered list of actions the call performs. -/
def ccScheduleLazyWriteScan (fastScan : Bool) (g : ScanGlobals) :
    ScanGlobals × List SchedAction :=
  if fastScan then
    ({ g with scanActive := true, timer := some Delay.noDelay },
     [SchedAction.setActive, SchedAction.armTimer Delay.noDelay])
  else if g.scanActive then
    ({ g with timer := some Delay.idleDelay },
     [SchedAction.armTimer Delay.idleDelay])
  else
    ({ g with scanActive := true, timer := some Delay.firstDelay },
     [SchedAction.setActive, SchedAction.armTimer Delay.firstDelay])

/-- Re-arming while active is a fixed point of the state part. -/
theorem scheduleLazyWriteScan_active (g : ScanGlobals) (h : g.scanActive = true) :
    (ccScheduleLazyWriteScan false g).1 = { g with timer := some Delay.idleDelay } := by
  simp [ccScheduleLazyWriteScan, h]

/-- Iterating the non-fast call on an active state converges after one step. -/
theorem scheduleLazyWriteScan_iterate (g : ScanGlobals) (h : g.scanActive = true) :
    ∀ n : Nat, (fun s => (ccScheduleLazyWriteScan false s).1)^[n + 1] g =
      { g with timer := some Delay.idleDelay } := by
  intro n
  induction n with
  | zero => simpa using scheduleLazyWriteScan_active g h
  | succ k ih =>
      rw [Function.iterate_succ_apply', ih]
      exact scheduleLazyWriteScan_active _ h

/-- C10: calling CcScheduleLazyWriteScan(FALSE) while ScanActive is true only
re-arms the timer with the idle delay and changes no other state, so N >= 1
consecutive such calls equal one call and leave a single armed timer (one
subsequent scan); with ScanActive false it sets ScanActive before arming with
the first delay, and with FastScan it sets ScanActive before arming with zero
delay (the action lists record the order). -/
theorem c10_schedule_idempotent (g : ScanGlobals) (n : Nat) (hn : 1 ≤ n) :
    (g.scanActive = true →
      ccScheduleLazyWriteScan false g =
        ({ g with timer := some Delay.idleDelay },
         [SchedAction.armTimer Delay.idleDelay]) ∧
      (fun s => (ccScheduleLazyWriteScan false s).1)^[n] g =
        { g with timer := some Delay.idleDelay }) ∧
    (g.scanActive = false →
      ccScheduleLazyWriteScan false g =
        ({ g with scanActive := true, timer := some Delay.firstDelay },
         [SchedAction.setActive, SchedAction.armTimer Delay.firstDelay])) ∧
    ccScheduleLazyWriteScan true g =
      ({ g with scanActive := true, timer := some Delay.noDelay },
       [SchedAction.setActive, SchedAction.armTimer Delay.noDelay]) := by
  refine ⟨fun h => ⟨by simp [ccScheduleLazyWriteScan, h], ?_⟩,
    fun h => by simp [ccScheduleLazyWriteScan, h], by simp [ccScheduleLazyWriteScan]⟩
  obtain ⟨m, rfl⟩ : ∃ m, n = m + 1 := ⟨n - 1, by omega⟩
  exact scheduleLazyWriteScan_iterate g h m

/-- Concrete state used by witnesses of the scheduler claims. -/
def gActive : ScanGlobals :=
  { totalDirtyPages := 0, dirtyPagesLastScan := 0, pagesWrittenLastTime := 0
    pagesYetToWrite := 0, otherWork := false, scanActive := true, timer := none
    postTickQueue := [], regularQueue := [], expressQueue := []
    deferredWritesNonEmpty := false, dirtyList := [] }

theorem c10_schedule_idempotent_witness :
    (fun s => (ccScheduleLazyWriteScan false s).1)^[3] gActive =
      { gActive with timer := some Delay.idleDelay } :=
  ((c10_schedule_idempotent gActive 3 (by decide)).1 rfl).2

/-- First assignment of PagesToWrite, lazyrite.c lines 197-200: the total
dirty page count, divided by LAZY_WRITER_MAX_AGE_TARGET only when it exceeds
that constant. -/
def initialPagesToWrite (lwmat total : Nat) : Nat :=
  if total > lwmat then total / lwmat else total

/-- ForegroundRate, lazyrite.c lines 205-208, with the C ULONG addition taken
mod 2 ^ 32. -/
def foregroundRate (total writtenLast lastScan : Nat) : Nat :=
  if (total + writtenLast) % U32 > lastScan then
    (total + writtenLast) % U32 - lastScan
  else 0

/-- C ULONG subtraction for operands below 2 ^ 32. -/
def ulongSub (a b : Nat) : Nat := (a % U32 + U32 - b % U32) % U32

/-- PagesToWrite after lazyrite.c lines 197-214: the initial fraction, bumped
by the excess of EstimatedDirtyNextInterval over CcDirtyPageTarget. -/
def computeBudget (lwmat target total writtenLast lastScan : Nat) : Nat :=
  let ptw := initialPagesToWrite lwmat total
  let fr := foregroundRate total writtenLast lastScan
  let edni := (ulongSub total ptw + fr) % U32
  if edni > target then (ptw + (edni - target)) % U32 else ptw

/-- Budget formula exactly as claim C2 words it, in exact arithmetic.  Nat
subtraction realises the max(0, x) of the claim for the rate, and the bump
condition uses the exact mathematical value. -/
def claimBudgetC2 (lwmat target total writtenLast lastScan : Nat) : Nat :=
  let ptw := if total > lwmat then total / lwmat else total
  let fr := total + writtenLast - lastScan
  if total - ptw + fr > target then ptw + (total - ptw + fr - target) else ptw

/-- State updates of lazyrite.c lines 193 and 217-218 bundled with the budget
value: clear OtherWork, record CcDirtyPagesLastScan, publish CcPagesYetToWrite
and CcPagesWrittenLastTime. -/
def budgetPhase (env : ScanEnv) (g : ScanGlobals) : ScanGlobals × Nat :=
  let ptw := computeBudget env.lazyWriterMaxAgeTarget env.dirtyPageTarget
    g.totalDirtyPages g.pagesWrittenLastTime g.dirtyPagesLastScan
  ({ g with otherWork := false,
            dirtyPagesLastScan := g.totalDirtyPages,
            pagesYetToWrite := ptw,
            pagesWrittenLastTime := ptw }, ptw)

/-- The initial fraction never exceeds the total. -/
theorem initialPagesToWrite_le (lwmat total : Nat) :
    initialPagesToWrite lwmat total ≤ total := by
  unfold initialPagesToWrite
  split
  · exact Nat.div_le_self _ _
  · exact le_rfl

/-- Mod-2^32 arithmetic of the budget agrees with the exact formula when the
inputs are far from the ULONG limit. -/
theorem computeBudget_eq_claim (lwmat target total writtenLast lastScan : Nat)
    (hov : 3 * total + writtenLast < U32) :
    computeBudget lwmat target total writtenLast lastScan =
      claimBudgetC2 lwmat target total writtenLast lastScan := by
  have hp : initialPagesToWrite lwmat total ≤ total := initialPagesToWrite_le lwmat total
  unfold computeBudget claimBudgetC2 foregroundRate ulongSub
  dsimp only
  have hpe : (if total > lwmat then total / lwmat else total) =
      initialPagesToWrite lwmat total := rfl
  rw [hpe]
  set p := initialPagesToWrite lwmat total with hpdef
  have h1 : (total + writtenLast) % U32 = total + writtenLast :=
    Nat.mod_eq_of_lt (by omega)
  have h2 : total % U32 = total := Nat.mod_eq_of_lt (by omega)
  have h3 : p % U32 = p := Nat.mod_eq_of_lt (by omega)
  rw [h1, h2, h3]
  have h4 : (total + U32 - p) % U32 = total - p := by
    have he : total + U32 - p = (total - p) + U32 := by omega
    rw [he, Nat.add_mod_right]
    exact Nat.mod_eq_of_lt (by omega)
  rw [h4]
  have hfr : (if total + writtenLast > lastScan
      then total + writtenLast - lastScan else 0) =
      total + writtenLast - lastScan := by
    split <;> omega
  rw [hfr]
  have h5 : (total - p + (total + writtenLast - lastScan)) % U32 =
      total - p + (total + writtenLast - lastScan) :=
    Nat.mod_eq_of_lt (by omega)
  rw [h5]
  split_ifs with hA
  · exact Nat.mod_eq_of_lt (by omega)
  · rfl

/-- C2: at every tick passing the quiescence test, the budget equals the
claimed formula (initial fraction, foreground rate estimator, bump to land on
target), and the scan publishes CcDirtyPagesLastScan := CcTotalDirtyPages,
CcPagesYetToWrite = CcPagesWrittenLastTime = final PagesToWrite, and clears
OtherWork.  The overflow hypothesis keeps the ULONG arithmetic exact. -/
theorem c2_budget (env : ScanEnv) (g : ScanGlobals)
    (hov : 3 * g.totalDirtyPages + g.pagesWrittenLastTime < U32) :
    (budgetPhase env g).2 =
      claimBudgetC2 env.lazyWriterMaxAgeTarget env.dirtyPageTarget
        g.totalDirtyPages g.pagesWrittenLastTime g.dirtyPagesLastScan ∧
    (budgetPhase env g).1.dirtyPagesLastScan = g.totalDirtyPages ∧
    (budgetPhase env g).1.pagesYetToWrite = (budgetPhase env g).2 ∧
    (budgetPhase env g).1.pagesWrittenLastTime = (budgetPhase env g).2 ∧
    (budgetPhase env g).1.otherWork = false := by
  refine ⟨?_, rfl, rfl, rfl, rfl⟩
  exact computeBudget_eq_claim _ _ _ _ _ hov

/-- Concrete state realising the worked example of claim C2: 100 dirty pages,
target 1000, zero rate. -/
def gBudget : ScanGlobals :=
  { gActive with totalDirtyPages := 100, otherWork := false }

/-- Environment with the spec tunables age_target = 8 and target 1000. -/
def envBudget : ScanEnv :=
  { smallSystem := false, maxWriteBehindPages := 8
    lazyWriterMaxAgeTarget := 8, dirtyPageTarget := 1000 }

theorem c2_budget_witness :
    (budgetPhase envBudget gBudget).2 =
      claimBudgetC2 8 1000 100 0 0 ∧ (budgetPhase envBudget gBudget).2 = 12 :=
  ⟨(c2_budget envBudget gBudget (by decide)).1, by decide⟩

/-- C3: at the point where EstimatedDirtyNextInterval is evaluated the
invariant PagesToWrite <= CcTotalDirtyPages holds (PagesToWrite is the total
or the total divided by LAZY_WRITER_MAX_AGE_TARGET), so the ULONG subtraction
CcTotalDirtyPages - PagesToWrite equals the exact mathematical difference and
never wraps mod 2 ^ 32. -/
theorem c3_no_wrap (lwmat total : Nat) (h : total < U32) :
    initialPagesToWrite lwmat total ≤ total ∧
    ulongSub total (initialPagesToWrite lwmat total) =
      total - initialPagesToWrite lwmat total := by
  have hp := initialPagesToWrite_le lwmat total
  refine ⟨hp, ?_⟩
  unfold ulongSub
  have h2 : total % U32 = total := Nat.mod_eq_of_lt h
  have h3 : initialPagesToWrite lwmat total % U32 = initialPagesToWrite lwmat total :=
    Nat.mod_eq_of_lt (by omega)
  rw [h2, h3]
  have he : total + U32 - initialPagesToWrite lwmat total =
      (total - initialPagesToWrite lwmat total) + U32 := by omega
  rw [he, Nat.add_mod_right]
  exact Nat.mod_eq_of_lt (by omega)

theorem c3_no_wrap_witness :
    initialPagesToWrite 8 100 ≤ 100 ∧
    ulongSub 100 (initialPagesToWrite 8 100) = 100 - initialPagesToWrite 8 100 :=
  c3_no_wrap 8 100 (by decide)

/-- True exactly when the C short-circuit evaluation of the dispatch condition
(lazyrite.c lines 245-255) reaches the expression
++SharedCacheMap->LazyWritePassCount on line 249: the WRITE_QUEUED and
IS_CURSOR test passed, DirtyPages is non-zero, WAITING_FOR_TEARDOWN is clear
and the remaining budget is non-zero. -/
def passCountIncremented (pagesToWrite : Nat) (s : SharedCacheMap) : Bool :=
  !(s.flags.writeQueued || s.flags.isCursor) && (s.dirtyPages != 0) &&
    !s.flags.waitingForTeardown && (pagesToWrite != 0)

/-- LazyWritePassCount of the stream after the condition was evaluated (the
increment is a ULONG increment). -/
def passCountAfter (pagesToWrite : Nat) (s : SharedCacheMap) : Nat :=
  if passCountIncremented pagesToWrite s then (s.lazyWritePassCount + 1) % U32
  else s.lazyWritePassCount

/-- Value of the dispatch condition of lazyrite.c lines 245-256, clause for
clause with the C operator precedence, under which the final
OpenCount == 0 && DirtyPages == 0 || FileSize.QuadPart == 0 groups as
(open = 0 and dirty = 0) or size = 0.  The bit test with 0xF is mod 16. -/
def scanConditionHolds (env : ScanEnv) (pagesToWrite : Nat) (s : SharedCacheMap) : Bool :=
  !(s.flags.writeQueued || s.flags.isCursor) &&
    (((s.dirtyPages != 0) &&
        (s.flags.waitingForTeardown ||
          ((pagesToWrite != 0) &&
            ((passCountAfter pagesToWrite s % 16 == 0) ||
              !s.flags.modifiedWriteDisabled ||
              env.smallSystem ||
              decide (4 * env.maxWriteBehindPages ≤ s.dirtyPages)) &&
            (!s.foTemporaryFile || (s.openCount == 0) || !s.canIWrite)))) ||
      (((s.openCount == 0) && (s.dirtyPages == 0)) || (s.fileSizeQuadPart == 0)))

/-- Eligibility for dispatch exactly as claim C1 words it. -/
def claimC1Eligible (env : ScanEnv) (pagesToWrite : Nat) (s : SharedCacheMap) : Prop :=
  (s.flags.writeQueued = false ∧ s.flags.isCursor = false) ∧
  ((s.dirtyPages ≠ 0 ∧
      (s.flags.waitingForTeardown = true ∨
        (pagesToWrite ≠ 0 ∧
          ((s.lazyWritePassCount + 1) % 16 = 0 ∨
            s.flags.modifiedWriteDisabled = false ∨
            env.smallSystem = true ∨
            4 * env.maxWriteBehindPages ≤ s.dirtyPages) ∧
          (s.foTemporaryFile = false ∨ s.openCount = 0 ∨ s.canIWrite = false)))) ∨
    (s.openCount = 0 ∧ s.dirtyPages = 0) ∨
    s.fileSizeQuadPart = 0)

/-- Reduction of the wrapped pass counter modulo 16. -/
theorem mod32_mod16 (n : Nat) : n % U32 % 16 = n % 16 := by
  have h : U32 = 16 * 2 ^ 28 := by norm_num [U32]
  exact Nat.mod_mod_of_dvd n ⟨2 ^ 28, h⟩

/-- The translated condition and the claim wording agree on every stream. -/
theorem scanConditionHolds_iff (env : ScanEnv) (pagesToWrite : Nat)
    (s : SharedCacheMap) :
    scanConditionHolds env pagesToWrite s = true ↔
      claimC1Eligible env pagesToWrite s := by
  by_cases hwq : s.flags.writeQueued <;>
    by_cases hcur : s.flags.isCursor <;>
    by_cases htd : s.flags.waitingForTeardown <;>
    by_cases hD : s.dirtyPages = 0 <;>
    by_cases hP : pagesToWrite = 0 <;>
    simp [scanConditionHolds, claimC1Eligible, passCountAfter, passCountIncremented,
      hwq, hcur, htd, hD, hP, mod32_mod16] <;>
    tauto

/-- State local to the scan loop: the locals PagesToWrite and AlreadyMoved and
the call counter of the CcAllocateWorkQueueEntry oracle. -/
structure StepState where
  pagesToWrite : Nat
  alreadyMoved : Bool
  allocIdx : Nat
  deriving DecidableEq, Repr

/-- Where the cursor ends up relative to the stream that met the budget. -/
inductive CursorMove
  | beforeStream
  | afterStream
  deriving DecidableEq, Repr

/-- Result of one scan loop body. -/
structure StepResult where
  stream : SharedCacheMap
  dispatched : Bool
  allocFailed : Bool
  posted : Option QueueId
  pagesToWrite : Nat
  alreadyMoved : Bool
  cursorMove : Option CursorMove
  allocIdx : Nat
  deriving DecidableEq, Repr

/-- PagesToWrite assigned to the stream at lazyrite.c lines 263-268: all of
its dirty pages, reduced to one eighth for an oversized
MODIFIED_WRITE_DISABLED stream on a system that is not small. -/
def streamPagesToWrite (env : ScanEnv) (s : SharedCacheMap) : Nat :=
  if s.flags.modifiedWriteDisabled &&
      decide (4 * env.maxWriteBehindPages ≤ s.dirtyPages) && !env.smallSystem then
    s.dirtyPages / 8
  else s.dirtyPages

/-- Cursor bookkeeping of lazyrite.c lines 271-299 for an eligible stream:
result is the cursor move to perform, the new remaining budget PagesToWrite
and the new AlreadyMoved.  The decision at line 285 reads the pass count the
condition may just have incremented, hence passCountAfter; the page count
the stream was assigned at lines 263-268 does not depend on the pass count,
hence streamPagesToWrite of the unmodified stream. -/
def cursorDecision (env : ScanEnv) (isFirst : Bool) (st : StepState)
    (s : SharedCacheMap) : Option CursorMove × Nat × Bool :=
  if !st.alreadyMoved then
    if st.pagesToWrite ≤ streamPagesToWrite env s then
      if s.flags.modifiedWriteDisabled ||
          (isFirst && (passCountAfter st.pagesToWrite s % 16 == 0)) then
        (some CursorMove.afterStream, 0, true)
      else
        (some CursorMove.beforeStream, 0, true)
    else (none, st.pagesToWrite - streamPagesToWrite env s, false)
  else (none, st.pagesToWrite, true)

/-- One iteration of the scan loop for stream s, lazyrite.c lines 245-346
with the deferred cursor re-insertion of lines 350-357 reported through
cursorMove.  alloc is the oracle of CcAllocateWorkQueueEntry, isFirst states
that s is FirstVisited.  A beforeStream move is performed at lines 290-291
before the dispatch; an afterStream move is deferred until after the
successor is read, so the break on allocation failure (line 317) drops it.
The lock-courtesy branch of lines 338-346 restores every field it touches
and is therefore the identity here. -/
def scanStep (env : ScanEnv) (alloc : Nat → Bool) (isFirst : Bool)
    (st : StepState) (s : SharedCacheMap) : StepResult :=
  if scanConditionHolds env st.pagesToWrite s then
    let d := cursorDecision env isFirst st s
    let s3 : SharedCacheMap :=
      { s with lazyWritePassCount := passCountAfter st.pagesToWrite s,
               pagesToWrite := streamPagesToWrite env s,
               flags := { s.flags with writeQueued := true },
               dirtyPages := (s.dirtyPages + 1) % U32 }
    if alloc st.allocIdx then
      { stream := { s3 with dirtyPages := ulongSub s3.dirtyPages 1 },
        dispatched := true, allocFailed := false,
        posted := some (if s.flags.waitingForTeardown then QueueId.express
          else QueueId.regular),
        pagesToWrite := d.2.1, alreadyMoved := d.2.2,
        cursorMove := d.1, allocIdx := st.allocIdx + 1 }
    else
      { stream := { s3 with flags := { s3.flags with writeQueued := false },
                            dirtyPages := ulongSub s3.dirtyPages 1 },
        dispatched := true, allocFailed := true, posted := none,
        pagesToWrite := d.2.1, alreadyMoved := d.2.2,
        cursorMove := match d.1 with
          | some CursorMove.beforeStream => some CursorMove.beforeStream
          | _ => none,
        allocIdx := st.allocIdx + 1 }
  else
    { stream := { s with lazyWritePassCount := passCountAfter st.pagesToWrite s },
      dispatched := false, allocFailed := false, posted := none,
      pagesToWrite := st.pagesToWrite, alreadyMoved := st.alreadyMoved,
      cursorMove := none, allocIdx := st.allocIdx }

/-- The dispatch branch is entered exactly when the condition holds. -/
theorem scanStep_dispatched (env : ScanEnv) (alloc : Nat → Bool)
    (isFirst : Bool) (st : StepState) (s : SharedCacheMap) :
    (scanStep env alloc isFirst st s).dispatched =
      scanConditionHolds env st.pagesToWrite s := by
  unfold scanStep
  split <;> rename_i h
  · cases halloc : alloc st.allocIdx <;> simp [h, halloc]
  · simp [h]

/-- C1: a stream inspected by the scan is dispatched iff it has neither
WRITE_QUEUED nor IS_CURSOR set and one of the three clauses of the claim
holds; by C operator precedence the zero-file-size clause stands alone, so a
zero-size stream is eligible regardless of open count and dirty pages. -/
theorem c1_dispatch_iff (env : ScanEnv) (alloc : Nat → Bool) (isFirst : Bool)
    (st : StepState) (s : SharedCacheMap) :
    (scanStep env alloc isFirst st s).dispatched = true ↔
      claimC1Eligible env st.pagesToWrite s := by
  rw [scanStep_dispatched]
  exact scanConditionHolds_iff env st.pagesToWrite s

/-- Accumulated result of the scan loop over the dirty list. -/
structure LoopResult where
  streams : List SharedCacheMap
  expressPosted : List WorkItem
  regularPosted : List WorkItem
  cursorMove : Option (Nat × CursorMove)
  pagesToWrite : Nat
  alreadyMoved : Bool
  allocFailed : Bool
  allocIdx : Nat
  deriving DecidableEq, Repr

/-- The scan loop of lazyrite.c lines 221-360 over the dirty list read in
cursor order.  idx is the position of the head of the remaining list within
the full list; the WriteBehind entry posted for a stream carries that
position as its tag.  The traversal visits each stream once, in the original
order: a beforeStream cursor splice re-inserts the cursor between the
predecessor of the stream and the stream, and an afterStream splice happens
only after the successor was read, so neither changes which node the loop
reads next.  On allocation failure the break of line 317 leaves the rest of
the list uninspected. -/
def scanLoop (env : ScanEnv) (alloc : Nat → Bool) (st : StepState) (idx : Nat) :
    List SharedCacheMap → LoopResult
  | [] =>
    { streams := [], expressPosted := [], regularPosted := [],
      cursorMove := none, pagesToWrite := st.pagesToWrite,
      alreadyMoved := st.alreadyMoved, allocFailed := false,
      allocIdx := st.allocIdx }
  | s :: rest =>
    let r := scanStep env alloc (idx == 0) st s
    let posted : List WorkItem :=
      match r.posted with
      | some _ => [{ fn := CcFunctionKind.writeBehind, tag := idx }]
      | none => []
    if r.allocFailed then
      { streams := r.stream :: rest,
        expressPosted := if r.posted = some QueueId.express then posted else [],
        regularPosted := if r.posted = some QueueId.regular then posted else [],
        cursorMove := r.cursorMove.map (fun m => (idx, m)),
        pagesToWrite := r.pagesToWrite, alreadyMoved := r.alreadyMoved,
        allocFailed := true, allocIdx := r.allocIdx }
    else
      let tail := scanLoop env alloc
        { pagesToWrite := r.pagesToWrite, alreadyMoved := r.alreadyMoved,
          allocIdx := r.allocIdx } (idx + 1) rest
      { streams := r.stream :: tail.streams,
        expressPosted := (if r.posted = some QueueId.express then posted else [])
          ++ tail.expressPosted,
        regularPosted := (if r.posted = some QueueId.regular then posted else [])
          ++ tail.regularPosted,
        cursorMove := match r.cursorMove with
          | some m => some (idx, m)
          | none => tail.cursorMove,
        pagesToWrite := tail.pagesToWrite, alreadyMoved := tail.alreadyMoved,
        allocFailed := tail.allocFailed, allocIdx := tail.allocIdx }

/-- Rotation of the dirty list: the circular order is unchanged and the read
start moves to position i. -/
def rotateList (ss : List SharedCacheMap) (i : Nat) : List SharedCacheMap :=
  ss.drop i ++ ss.take i

/-- The dirty list in cursor order for the next tick.  Re-inserting the
cursor immediately before stream i makes the next tick start at stream i;
re-inserting it immediately after stream i makes the next tick start at the
circular successor of stream i. -/
def applyCursorMove (ss : List SharedCacheMap) :
    Option (Nat × CursorMove) → List SharedCacheMap
  | none => ss
  | some (i, CursorMove.beforeStream) => rotateList ss i
  | some (i, CursorMove.afterStream) => rotateList ss (i + 1)

/-- Outcome of one scan tick. -/
structure ScanOutcome where
  g : ScanGlobals
  postedDeferredWrites : Bool
  deriving DecidableEq, Repr

/-- CcLazyWriteScan, lazyrite.c lines 121-388: quiescence test, drain of
CcPostTickWorkQueue, budget computation, loop over the dirty list, splice of
the drained entries to the tail of CcRegularWorkQueue (also after an early
break), deferred-write poke and rescheduling.  newPostTick models the
entries other threads insert into CcPostTickWorkQueue after the drain of
lines 186-190 and before the tick ends. -/
def ccLazyWriteScan (env : ScanEnv) (alloc : Nat → Bool)
    (newPostTick : List WorkItem) (g : ScanGlobals) : ScanOutcome :=
  if g.totalDirtyPages = 0 ∧ g.otherWork = false then
    if g.deferredWritesNonEmpty = false then
      { g := { g with scanActive := false }, postedDeferredWrites := false }
    else
      { g := (ccScheduleLazyWriteScan false g).1, postedDeferredWrites := true }
  else
    let drained := g.postTickQueue
    let gp := budgetPhase env { g with postTickQueue := newPostTick }
    let r := scanLoop env alloc
      { pagesToWrite := gp.2, alreadyMoved := false, allocIdx := 0 } 0
      gp.1.dirtyList
    let g2 := { gp.1 with
      dirtyList := applyCursorMove r.streams r.cursorMove,
      expressQueue := gp.1.expressQueue ++ r.expressPosted,
      regularQueue := gp.1.regularQueue ++ r.regularPosted ++ drained }
    { g := (ccScheduleLazyWriteScan false g2).1,
      postedDeferredWrites := g2.deferredWritesNonEmpty }

/-- Scheduling never touches the queues or the dirty list. -/
theorem scheduleLazyWriteScan_queues (fastScan : Bool) (g : ScanGlobals) :
    (ccScheduleLazyWriteScan fastScan g).1.regularQueue = g.regularQueue ∧
    (ccScheduleLazyWriteScan fastScan g).1.postTickQueue = g.postTickQueue ∧
    (ccScheduleLazyWriteScan fastScan g).1.expressQueue = g.expressQueue ∧
    (ccScheduleLazyWriteScan fastScan g).1.dirtyList = g.dirtyList := by
  unfold ccScheduleLazyWriteScan
  split_ifs <;> simp

/-- A stream passing the dispatch condition has WRITE_QUEUED clear. -/
theorem scanConditionHolds_not_writeQueued (env : ScanEnv) (ptw : Nat)
    (s : SharedCacheMap) (h : scanConditionHolds env ptw s = true) :
    s.flags.writeQueued = false := by
  simp only [scanConditionHolds, Bool.and_eq_true, Bool.not_eq_true',
    Bool.or_eq_false_iff] at h
  exact h.1.1

/-- Unbias after bias restores a ULONG counter. -/
theorem ulongSub_add_one (d : Nat) (hd : d < U32) :
    ulongSub ((d + 1) % U32) 1 = d := by
  have h32 : (0 : Nat) < U32 := by norm_num [U32]
  have h1 : (1 : Nat) % U32 = 1 := by norm_num [U32]
  unfold ulongSub
  rcases Nat.lt_or_ge (d + 1) U32 with h | h
  · rw [Nat.mod_eq_of_lt h, Nat.mod_eq_of_lt h, h1]
    have he : d + 1 + U32 - 1 = d + U32 := by omega
    rw [he, Nat.add_mod_right]
    exact Nat.mod_eq_of_lt hd
  · have he : d + 1 = U32 := by omega
    rw [he, Nat.mod_self, Nat.zero_mod, h1]
    rw [Nat.mod_eq_of_lt (by omega)]
    omega

/-- C5: for every dispatched stream the scan sets WRITE_QUEUED and biases
DirtyPages by one; on allocation failure it restores the flags and the count
exactly and stops the iteration, and on success the bias is removed and the
entry is posted to the express queue iff WAITING_FOR_TEARDOWN is set, so in
every case the +1 bias is gone when the dispatch step ends. -/
theorem c5_dispatch_bookkeeping (env : ScanEnv) (alloc : Nat → Bool)
    (isFirst : Bool) (st : StepState) (s : SharedCacheMap)
    (hd : s.dirtyPages < U32)
    (he : scanConditionHolds env st.pagesToWrite s = true) :
    ((scanStep env alloc isFirst st s).allocFailed = true →
      (scanStep env alloc isFirst st s).stream.flags = s.flags ∧
      (scanStep env alloc isFirst st s).stream.dirtyPages = s.dirtyPages ∧
      (scanStep env alloc isFirst st s).posted = none) ∧
    ((scanStep env alloc isFirst st s).allocFailed = false →
      (scanStep env alloc isFirst st s).stream.dirtyPages = s.dirtyPages ∧
      (scanStep env alloc isFirst st s).stream.flags.writeQueued = true ∧
      (scanStep env alloc isFirst st s).posted =
        some (if s.flags.waitingForTeardown = true then QueueId.express
          else QueueId.regular)) ∧
    (∀ (st2 : StepState) (idx : Nat) (rest : List SharedCacheMap),
      (scanStep env alloc (idx == 0) st2 s).allocFailed = true →
      (scanLoop env alloc st2 idx (s :: rest)).streams =
        (scanStep env alloc (idx == 0) st2 s).stream :: rest) := by
  obtain ⟨⟨wq, cur, mwd, td⟩, tmp, d, oc, fs, pc, sp, ciw⟩ := s
  have hwq : wq = false := by
    simpa using scanConditionHolds_not_writeQueued env st.pagesToWrite _ he
  subst hwq
  have hd2 : d < U32 := by simpa using hd
  refine ⟨?_, ?_, ?_⟩
  · intro hfail
    cases halloc : alloc st.allocIdx
    · refine ⟨?_, ?_, ?_⟩ <;>
        simp [scanStep, he, halloc, ulongSub_add_one d hd2]
    · simp [scanStep, he, halloc] at hfail
  · intro hok
    cases halloc : alloc st.allocIdx
    · simp [scanStep, he, halloc] at hok
    · refine ⟨?_, ?_, ?_⟩ <;>
        simp [scanStep, he, halloc, ulongSub_add_one d hd2]
  · intro st2 idx rest hfail
    simp only [scanLoop]
    rw [if_pos hfail]

/-- Decision predicate of lazyrite.c line 285 for moving the cursor behind
the stream: MODIFIED_WRITE_DISABLED, or the first visited stream on a pass
whose incremented count is divisible by 16. -/
def moveBehindDecision (isFirst : Bool) (budget : Nat) (s : SharedCacheMap) : Prop :=
  s.flags.modifiedWriteDisabled = true ∨
    (isFirst = true ∧ passCountAfter budget s % 16 = 0)

instance (isFirst : Bool) (budget : Nat) (s : SharedCacheMap) :
    Decidable (moveBehindDecision isFirst budget s) := by
  unfold moveBehindDecision
  infer_instance

/-- Decision when the budget is met and the move-behind predicate holds. -/
theorem cursorDecision_behind (env : ScanEnv) (isFirst : Bool) (st : StepState)
    (s : SharedCacheMap) (hm : st.alreadyMoved = false)
    (hle : st.pagesToWrite ≤ streamPagesToWrite env s)
    (hmv : moveBehindDecision isFirst st.pagesToWrite s) :
    cursorDecision env isFirst st s = (some CursorMove.afterStream, 0, true) := by
  have hb : (s.flags.modifiedWriteDisabled ||
      (isFirst && (passCountAfter st.pagesToWrite s % 16 == 0))) = true := by
    rcases hmv with h | ⟨h1, h2⟩
    · simp [h]
    · simp [h1, h2]
  unfold cursorDecision
  simp [hm, hle, hb]

/-- Decision when the budget is met and the move-behind predicate fails. -/
theorem cursorDecision_before (env : ScanEnv) (isFirst : Bool) (st : StepState)
    (s : SharedCacheMap) (hm : st.alreadyMoved = false)
    (hle : st.pagesToWrite ≤ streamPagesToWrite env s)
    (hmv : ¬moveBehindDecision isFirst st.pagesToWrite s) :
    cursorDecision env isFirst st s = (some CursorMove.beforeStream, 0, true) := by
  have hb : (s.flags.modifiedWriteDisabled ||
      (isFirst && (passCountAfter st.pagesToWrite s % 16 == 0))) = false := by
    rcases hbo : s.flags.modifiedWriteDisabled with _ | _ <;>
      rcases hfo : isFirst with _ | _ <;>
      simp_all [moveBehindDecision]
  unfold cursorDecision
  simp [hm, hle, hb]

/-- Decision when the budget is not met. -/
theorem cursorDecision_notMet (env : ScanEnv) (isFirst : Bool) (st : StepState)
    (s : SharedCacheMap) (hm : st.alreadyMoved = false)
    (hlt : streamPagesToWrite env s < st.pagesToWrite) :
    cursorDecision env isFirst st s =
      (none, st.pagesToWrite - streamPagesToWrite env s, false) := by
  unfold cursorDecision
  simp [hm, Nat.not_le.mpr hlt]

/-- Head of a dropped list is the element at the dropped position. -/
theorem head?_drop_get? (l : List SharedCacheMap) (i : Nat) :
    (l.drop i).head? = l.get? i := by
  induction l generalizing i with
  | nil => cases i <;> simp
  | cons a t ih =>
      cases i with
      | zero => simp
      | succ j => simpa using ih j

/-- Head of a rotated list. -/
theorem rotateList_head (ss : List SharedCacheMap) (i : Nat) (h : i < ss.length) :
    (rotateList ss i).head? = ss.get? i := by
  unfold rotateList
  rw [← head?_drop_get?]
  cases hD : ss.drop i with
  | nil =>
      exfalso
      have hlen := List.length_drop i ss
      rw [hD] at hlen
      simp at hlen
      omega
  | cons b u => simp [hD]

/-- C4 (amended): while the cursor has not moved, a stream meeting the
remaining budget zeroes the budget and sets AlreadyMoved; the cursor is
re-inserted after the stream when the move-behind decision holds and the
work-entry allocation succeeds (on allocation failure the break of line 317
skips the deferred re-insertion and the cursor does not move), and before
the stream otherwise; re-insertion before stream i makes the next tick start
on that stream and re-insertion after it makes the next tick start on its
circular successor.  A stream below the budget decreases it by exactly its
own page count and never moves the cursor. -/
theorem c4_cursor_amended (env : ScanEnv) (alloc : Nat → Bool) (isFirst : Bool)
    (st : StepState) (s : SharedCacheMap)
    (hm : st.alreadyMoved = false)
    (he : scanConditionHolds env st.pagesToWrite s = true) :
    (st.pagesToWrite ≤ streamPagesToWrite env s →
      (scanStep env alloc isFirst st s).pagesToWrite = 0 ∧
      (scanStep env alloc isFirst st s).alreadyMoved = true ∧
      (moveBehindDecision isFirst st.pagesToWrite s →
        ((scanStep env alloc isFirst st s).allocFailed = false →
          (scanStep env alloc isFirst st s).cursorMove =
            some CursorMove.afterStream) ∧
        ((scanStep env alloc isFirst st s).allocFailed = true →
          (scanStep env alloc isFirst st s).cursorMove = none)) ∧
      (¬moveBehindDecision isFirst st.pagesToWrite s →
        (scanStep env alloc isFirst st s).cursorMove =
          some CursorMove.beforeStream)) ∧
    (streamPagesToWrite env s < st.pagesToWrite →
      (scanStep env alloc isFirst st s).pagesToWrite =
        st.pagesToWrite - streamPagesToWrite env s ∧
      (scanStep env alloc isFirst st s).alreadyMoved = false ∧
      (scanStep env alloc isFirst st s).cursorMove = none) ∧
    (∀ (ss : List SharedCacheMap) (i : Nat), i < ss.length →
      (applyCursorMove ss (some (i, CursorMove.beforeStream))).head? = ss.get? i ∧
      (applyCursorMove ss (some (i, CursorMove.afterStream))).head? =
        ss.get? ((i + 1) % ss.length)) := by
  refine ⟨?_, ?_, ?_⟩
  · intro hle
    by_cases hmv : moveBehindDecision isFirst st.pagesToWrite s
    · have hdec := cursorDecision_behind env isFirst st s hm hle hmv
      cases halloc : alloc st.allocIdx <;>
        simp [scanStep, he, halloc, hdec, hmv]
    · have hdec := cursorDecision_before env isFirst st s hm hle hmv
      cases halloc : alloc st.allocIdx <;>
        simp [scanStep, he, halloc, hdec, hmv]
  · intro hlt
    have hdec := cursorDecision_notMet env isFirst st s hm hlt
    cases halloc : alloc st.allocIdx <;>
      simp [scanStep, he, halloc, hdec]
  · intro ss i hi
    refine ⟨rotateList_head ss i hi, ?_⟩
    show (rotateList ss (i + 1)).head? = ss.get? ((i + 1) % ss.length)
    rcases Nat.lt_or_ge (i + 1) ss.length with h | h
    · rw [rotateList_head ss (i + 1) h, Nat.mod_eq_of_lt h]
    · have hlen : i + 1 = ss.length := by omega
      rw [hlen, Nat.mod_self]
      unfold rotateList
      simp [List.drop_length, List.take_length]
      cases ss with
      | nil => simp at hi
      | cons a t => simp

/-- Environment shared by the concrete scan scenarios: the system is not
small, 4 * maxWriteBehindPages = 32 pages, age target 8 (the spec tunable),
dirty page target 1000. -/
def envC4 : ScanEnv :=
  { smallSystem := false, maxWriteBehindPages := 8
    lazyWriterMaxAgeTarget := 8, dirtyPageTarget := 1000 }

/-- MODIFIED_WRITE_DISABLED stream with 104 dirty pages: eligible since it is
oversized (104 >= 32), and its assigned page count 104 / 8 = 13 meets the
tick budget 13. -/
def s1C4 : SharedCacheMap :=
  { flags := { writeQueued := false, isCursor := false
               modifiedWriteDisabled := true, waitingForTeardown := false }
    foTemporaryFile := false, dirtyPages := 104, openCount := 1
    fileSizeQuadPart := 4096, lazyWritePassCount := 0, pagesToWrite := 0
    canIWrite := true }

/-- Successor of s1C4 in the dirty list. -/
def s2C4 : SharedCacheMap :=
  { flags := { writeQueued := false, isCursor := false
               modifiedWriteDisabled := false, waitingForTeardown := false }
    foTemporaryFile := false, dirtyPages := 5, openCount := 2
    fileSizeQuadPart := 4096, lazyWritePassCount := 0, pagesToWrite := 0
    canIWrite := true }

/-- Globals for the concrete tick: 109 dirty pages total, so the budget is
109 / 8 = 13 with no bump. -/
def gC4 : ScanGlobals :=
  { totalDirtyPages := 109, dirtyPagesLastScan := 0, pagesWrittenLastTime := 0
    pagesYetToWrite := 0, otherWork := false, scanActive := true, timer := none
    postTickQueue := [], regularQueue := [], expressQueue := []
    deferredWritesNonEmpty := false, dirtyList := [s1C4, s2C4] }

/-- C4 fails as stated: s1C4 is eligible, MODIFIED_WRITE_DISABLED and meets
the remaining budget 13 while the cursor has not yet moved, so the claim
requires the cursor to be re-inserted immediately after it and the next tick
to start at its successor s2C4; but the work-entry allocation fails, the
break of lazyrite.c line 317 skips the deferred re-insertion of lines
353-357, the cursor stays where it was, and the next tick starts again at
s1C4, not at s2C4. -/
theorem c4_counterexample :
    scanConditionHolds envC4 13 s1C4 = true ∧
    s1C4.flags.modifiedWriteDisabled = true ∧
    13 ≤ streamPagesToWrite envC4 s1C4 ∧
    (budgetPhase envC4 gC4).2 = 13 ∧
    (ccLazyWriteScan envC4 (fun _ => false) [] gC4).g.dirtyList.head? ≠
      some s2C4 := by
  decide

theorem c4_cursor_amended_witness :
    (scanStep envC4 (fun _ => true) true
      { pagesToWrite := 13, alreadyMoved := false, allocIdx := 0 } s1C4).cursorMove =
      some CursorMove.afterStream :=
  (((c4_cursor_amended envC4 (fun _ => true) true
      { pagesToWrite := 13, alreadyMoved := false, allocIdx := 0 } s1C4
      rfl (by decide)).1 (by decide)).2.2.1 (Or.inl rfl)).1 (by decide)

/-- Ordinary dirty stream used by the C5 witness: not metadata, not
temporary, 50 dirty pages. -/
def sLazy : SharedCacheMap :=
  { flags := { writeQueued := false, isCursor := false
               modifiedWriteDisabled := false, waitingForTeardown := false }
    foTemporaryFile := false, dirtyPages := 50, openCount := 1
    fileSizeQuadPart := 4096, lazyWritePassCount := 0, pagesToWrite := 0
    canIWrite := true }

theorem c5_dispatch_bookkeeping_witness :
    (scanStep envBudget (fun _ => false) true
      { pagesToWrite := 12, alreadyMoved := false, allocIdx := 0 } sLazy).stream.flags =
        sLazy.flags ∧
    (scanStep envBudget (fun _ => false) true
      { pagesToWrite := 12, alreadyMoved := false, allocIdx := 0 } sLazy).stream.dirtyPages =
        sLazy.dirtyPages ∧
    (scanStep envBudget (fun _ => false) true
      { pagesToWrite := 12, alreadyMoved := false, allocIdx := 0 } sLazy).posted = none :=
  (c5_dispatch_bookkeeping envBudget (fun _ => false) true
    { pagesToWrite := 12, alreadyMoved := false, allocIdx := 0 } sLazy
    (by decide) (by decide)).1 (by decide)

/-- C6: every entry sitting in CcPostTickWorkQueue at the start of a tick
that passes the quiescence test ends the tick appended, in order, at the
tail of CcRegularWorkQueue, whatever the allocation oracle did (including
an early break), while entries queued after the drain stay in
CcPostTickWorkQueue for a later tick. -/
theorem c6_post_tick_drain (env : ScanEnv) (alloc : Nat → Bool)
    (newPostTick : List WorkItem) (g : ScanGlobals)
    (hq : ¬(g.totalDirtyPages = 0 ∧ g.otherWork = false)) :
    ∃ posted, (ccLazyWriteScan env alloc newPostTick g).g.regularQueue =
        g.regularQueue ++ posted ++ g.postTickQueue ∧
      (ccLazyWriteScan env alloc newPostTick g).g.postTickQueue = newPostTick := by
  unfold ccLazyWriteScan
  rw [if_neg hq]
  dsimp only
  refine ⟨(scanLoop env alloc
      { pagesToWrite := (budgetPhase env { g with postTickQueue := newPostTick }).2,
        alreadyMoved := false, allocIdx := 0 } 0
      (budgetPhase env { g with postTickQueue := newPostTick }).1.dirtyList).regularPosted,
    ?_, ?_⟩
  · rw [(scheduleLazyWriteScan_queues false _).1]
    simp [budgetPhase]
  · rw [(scheduleLazyWriteScan_queues false _).2.1]
    simp [budgetPhase]

/-- Entry used by the C6 witness. -/
def barrierItem : WorkItem := { fn := CcFunctionKind.eventSet, tag := 7 }

/-- Globals for the C6 witness: a barrier entry is pending in the post tick
queue and there is other work. -/
def gC6 : ScanGlobals :=
  { gC4 with postTickQueue := [barrierItem], otherWork := true }

theorem c6_post_tick_drain_witness :
    ∃ posted, (ccLazyWriteScan envC4 (fun _ => true) [] gC6).g.regularQueue =
        gC6.regularQueue ++ posted ++ gC6.postTickQueue ∧
      (ccLazyWriteScan envC4 (fun _ => true) [] gC6).g.postTickQueue = [] :=
  c6_post_tick_drain envC4 (fun _ => true) [] gC6 (by decide)

/-- C8: with no dirty pages and no other work, the scan goes idle in one
tick when the deferred write list is empty (ScanActive cleared, nothing else
changed, no reschedule), and otherwise keeps ScanActive, pokes the deferred
writes and re-arms the timer with the idle delay. -/
theorem c8_quiescence (env : ScanEnv) (alloc : Nat → Bool)
    (newPostTick : List WorkItem) (g : ScanGlobals)
    (h0 : g.totalDirtyPages = 0) (hw : g.otherWork = false) :
    (g.deferredWritesNonEmpty = false →
      ccLazyWriteScan env alloc newPostTick g =
        { g := { g with scanActive := false }, postedDeferredWrites := false }) ∧
    (g.deferredWritesNonEmpty = true → g.scanActive = true →
      (ccLazyWriteScan env alloc newPostTick g).g =
        { g with timer := some Delay.idleDelay } ∧
      (ccLazyWriteScan env alloc newPostTick g).postedDeferredWrites = true) := by
  constructor
  · intro hdef
    unfold ccLazyWriteScan
    rw [if_pos ⟨h0, hw⟩, if_pos hdef]
  · intro hdef ha
    unfold ccLazyWriteScan
    rw [if_pos ⟨h0, hw⟩, if_neg (by simp [hdef])]
    exact ⟨scheduleLazyWriteScan_active g ha, rfl⟩

/-- Quiescent globals with a non-empty deferred write list. -/
def gQuiet : ScanGlobals :=
  { gActive with deferredWritesNonEmpty := true }

theorem c8_quiescence_witness :
    (ccLazyWriteScan envC4 (fun _ => true) [] gQuiet).g =
      { gQuiet with timer := some Delay.idleDelay } ∧
    (ccLazyWriteScan envC4 (fun _ => true) [] gQuiet).postedDeferredWrites = true :=
  (c8_quiescence envC4 (fun _ => true) [] gQuiet rfl rfl).2 rfl rfl

/-- State of one worker thread run: the two shared queues and the shared
counters CcNumberActiveWorkerThreads (which counts this worker) and
CcQueueThrottle, plus the locals DropThrottle and RescanOk of
CcWorkerThread. -/
structure WorkerState where
  express : List WorkItem
  regular : List WorkItem
  activeThreads : Nat
  queueThrottle : Bool
  dropThrottle : Bool
  rescanOk : Bool
  deriving DecidableEq, Repr

/-- Top-of-loop throttle release, lazyrite.c lines 476-478: a worker that
just signalled a barrier event clears CcQueueThrottle. -/
def throttleRelease (st : WorkerState) : WorkerState :=
  if st.dropThrottle then { st with dropThrottle := false, queueThrottle := false }
  else st

/-- Effect of the dispatch switch of lazyrite.c lines 510-535 on the
modelled state: a WriteBehind records the status its external CcWriteBehind
call reports in RescanOk (line 523), an EventSet signals its event and sets
DropThrottle (line 529); ReadAhead and LazyWriteScan touch none of these
fields. -/
def executeEntry (st : WorkerState) (w : WorkItem) : WorkerState :=
  match w.fn with
  | CcFunctionKind.writeBehind => { st with rescanOk := w.wbSuccess }
  | CcFunctionKind.eventSet => { st with dropThrottle := true }
  | _ => st

/-- One pass of the worker loop: either the loop exits (halt, lines 491-492
when both queues are empty or lines 498-501 for the EventSet throttle) or an
entry is removed and executed (next). -/
inductive WorkerStep
  | halt (st : WorkerState)
  | next (st : WorkerState) (w : WorkItem)
  deriving DecidableEq, Repr

/-- Queue selection and dispatch of lazyrite.c lines 481-535 (after the
throttle release): pick the express queue if non-empty else the regular
queue, exit when both are empty, peek the head entry, exit with
CcQueueThrottle set when it is an EventSet while more than one worker is
active, otherwise remove and execute it. -/
def workerPick (st : WorkerState) : WorkerStep :=
  match st.express, st.regular with
  | [], [] => WorkerStep.halt st
  | [], w :: rest =>
      if w.fn = CcFunctionKind.eventSet ∧ 1 < st.activeThreads then
        WorkerStep.halt { st with queueThrottle := true }
      else
        WorkerStep.next (executeEntry { st with regular := rest } w) w
  | w :: rest, _ =>
      if w.fn = CcFunctionKind.eventSet ∧ 1 < st.activeThreads then
        WorkerStep.halt { st with queueThrottle := true }
      else
        WorkerStep.next (executeEntry { st with express := rest } w) w

/-- One iteration of the worker loop of lazyrite.c lines 472-549: release a
pending throttle, then select and dispatch.  The CC_REQUEUE re-insertion is
not modelled: runs considered here are those in which no entry asks to be
re-queued. -/
def workerIteration (st0 : WorkerState) : WorkerStep :=
  workerPick (throttleRelease st0)

/-- Worker loop driver with fuel, returning the final state and the trace of
executed entries in order.  Every productive iteration removes one queue
entry, so fuel exceeding the total queue length never runs out. -/
def workerRunFuel : Nat → WorkerState → WorkerState × List WorkItem
  | 0, st => (st, [])
  | n + 1, st =>
    match workerIteration st with
    | WorkerStep.halt stF => (stF, [])
    | WorkerStep.next st1 w =>
        let r := workerRunFuel n st1
        (r.1, w :: r.2)

/-- Shared state the worker reads on its way out. -/
structure WorkerEnv where
  deferredWritesNonEmpty : Bool
  totalDirtyPages : Nat
  deriving DecidableEq, Repr

/-- Result of a whole worker run. -/
structure WorkerOutcome where
  final : WorkerState
  executed : List WorkItem
  invokedScan : Bool
  deriving DecidableEq, Repr

/-- CcWorkerThread, lazyrite.c lines 452-559: run the loop, go idle
(CcNumberActiveWorkerThreads -= 1 at line 553), and as a last action invoke
CcLazyWriteScan synchronously iff CcDeferredWrites is non-empty,
CcTotalDirtyPages >= 20 and RescanOk is set (lines 556-558). -/
def ccWorkerThread (env : WorkerEnv) (st : WorkerState) : WorkerOutcome :=
  let r := workerRunFuel (st.express.length + st.regular.length + 1) st
  { final := { r.1 with activeThreads := r.1.activeThreads - 1 },
    executed := r.2,
    invokedScan := env.deferredWritesNonEmpty &&
      decide (20 ≤ env.totalDirtyPages) && r.1.rescanOk }

/-- RescanOk after executing the given entries in order starting from init:
each WriteBehind overwrites it with its own status. -/
def lastWriteBehindOk (init : Bool) (ws : List WorkItem) : Bool :=
  ws.foldl (fun acc w =>
    if w.fn = CcFunctionKind.writeBehind then w.wbSuccess else acc) init

/-- Throttle release never changes RescanOk. -/
theorem throttleRelease_rescanOk (st : WorkerState) :
    (throttleRelease st).rescanOk = st.rescanOk := by
  unfold throttleRelease
  split <;> rfl

/-- Halting in the pick phase never changes RescanOk. -/
theorem workerPick_halt_rescanOk (st stF : WorkerState)
    (h : workerPick st = WorkerStep.halt stF) : stF.rescanOk = st.rescanOk := by
  rcases st with ⟨es, rs, a, qt, dt, ro⟩
  rcases es with _ | ⟨w, rest⟩
  · rcases rs with _ | ⟨w2, rest2⟩
    · unfold workerPick at h
      cases h
      rfl
    · unfold workerPick at h
      dsimp only at h
      split at h
      · cases h
        rfl
      · cases h
  · unfold workerPick at h
    dsimp only at h
    split at h
    · cases h
      rfl
    · cases h

/-- Executing an entry in the pick phase updates RescanOk only for a
WriteBehind. -/
theorem workerPick_next_rescanOk (st st1 : WorkerState) (w : WorkItem)
    (h : workerPick st = WorkerStep.next st1 w) :
    st1.rescanOk =
      if w.fn = CcFunctionKind.writeBehind then w.wbSuccess else st.rescanOk := by
  rcases st with ⟨es, rs, a, qt, dt, ro⟩
  rcases es with _ | ⟨v, rest⟩
  · rcases rs with _ | ⟨v2, rest2⟩
    · unfold workerPick at h
      cases h
    · unfold workerPick at h
      dsimp only at h
      split at h
      · cases h
      · cases h
        cases hfn : w.fn <;> simp [executeEntry, hfn]
  · unfold workerPick at h
    dsimp only at h
    split at h
    · cases h
    · cases h
      cases hfn : w.fn <;> simp [executeEntry, hfn]

/-- Halting never changes RescanOk. -/
theorem workerIteration_halt_rescanOk (st stF : WorkerState)
    (h : workerIteration st = WorkerStep.halt stF) :
    stF.rescanOk = st.rescanOk :=
  (workerPick_halt_rescanOk (throttleRelease st) stF h).trans
    (throttleRelease_rescanOk st)

/-- Executing an entry updates RescanOk only for a WriteBehind. -/
theorem workerIteration_next_rescanOk (st st1 : WorkerState) (w : WorkItem)
    (h : workerIteration st = WorkerStep.next st1 w) :
    st1.rescanOk =
      if w.fn = CcFunctionKind.writeBehind then w.wbSuccess else st.rescanOk := by
  have hp := workerPick_next_rescanOk (throttleRelease st) st1 w h
  rw [hp, throttleRelease_rescanOk st]

/-- RescanOk at the end of a run folds the executed trace. -/
theorem workerRunFuel_rescanOk (n : Nat) (st : WorkerState) :
    (workerRunFuel n st).1.rescanOk =
      lastWriteBehindOk st.rescanOk (workerRunFuel n st).2 := by
  induction n generalizing st with
  | zero => simp [workerRunFuel, lastWriteBehindOk]
  | succ k ih =>
      unfold workerRunFuel
      rcases hI : workerIteration st with stF | ⟨st1, w⟩
      · simpa [lastWriteBehindOk] using workerIteration_halt_rescanOk st stF hI
      · have hnext := workerIteration_next_rescanOk st st1 w hI
        simp only [lastWriteBehindOk, List.foldl_cons]
        rw [ih st1]
        unfold lastWriteBehindOk
        rw [hnext]

/-- Claim C9 as stated, at a worker start state: the exit scan invocation
happens iff deferred writes are pending, the dirty total is at least 20 and
the worker executed at least one successful WriteBehind during its run. -/
def claimC9Holds (env : WorkerEnv) (st : WorkerState) : Prop :=
  (ccWorkerThread env st).invokedScan = true ↔
    (env.deferredWritesNonEmpty = true ∧ 20 ≤ env.totalDirtyPages ∧
      ∃ w ∈ (ccWorkerThread env st).executed,
        w.fn = CcFunctionKind.writeBehind ∧ w.wbSuccess = true)

instance (env : WorkerEnv) (st : WorkerState) : Decidable (claimC9Holds env st) := by
  unfold claimC9Holds
  infer_instance

/-- Worker environment of the C9 counterexample: deferred writes pending and
25 dirty pages. -/
def envC9 : WorkerEnv := { deferredWritesNonEmpty := true, totalDirtyPages := 25 }

/-- Worker start state of the C9 counterexample: a successful WriteBehind
followed by a failing one. -/
def stC9 : WorkerState :=
  { express := []
    regular := [{ fn := CcFunctionKind.writeBehind, tag := 0, wbSuccess := true },
                { fn := CcFunctionKind.writeBehind, tag := 1, wbSuccess := false }]
    activeThreads := 1, queueThrottle := false, dropThrottle := false
    rescanOk := false }

/-- C9 fails as stated: this worker completes a successful WriteBehind and
then a failing one, deferred writes are pending and the dirty total is 25,
yet no scan is invoked on exit, because RescanOk is overwritten by every
WriteBehind (lazyrite.c line 523) and therefore records only the status of
the last one, not whether some successful write happened. -/
theorem c9_counterexample : ¬claimC9Holds envC9 stC9 := by
  decide

/-- C9 (amended): the exit scan invocation happens iff deferred writes are
pending, the dirty total is at least 20, and the most recent WriteBehind the
worker executed reported success (RescanOk tracks only the last completed
WriteBehind and starts false). -/
theorem c9_amended (env : WorkerEnv) (st : WorkerState)
    (h0 : st.rescanOk = false) :
    (ccWorkerThread env st).invokedScan = true ↔
      (env.deferredWritesNonEmpty = true ∧ 20 ≤ env.totalDirtyPages ∧
        lastWriteBehindOk false (ccWorkerThread env st).executed = true) := by
  unfold ccWorkerThread
  simp only [Bool.and_eq_true, decide_eq_true_eq]
  rw [workerRunFuel_rescanOk, h0]
  tauto

/-- Worker start state of the C9 witness: one successful WriteBehind. -/
def stC9ok : WorkerState :=
  { stC9 with regular := [{ fn := CcFunctionKind.writeBehind, tag := 0 }] }

theorem c9_amended_witness :
    (ccWorkerThread envC9 stC9ok).invokedScan = true ↔
      (envC9.deferredWritesNonEmpty = true ∧ 20 ≤ envC9.totalDirtyPages ∧
        lastWriteBehindOk false (ccWorkerThread envC9 stC9ok).executed = true) :=
  c9_amended envC9 stC9ok rfl

/-- C7: a worker never removes and executes an EventSet entry while another
worker is active.  If the head of the selected queue (express first, else
regular) is an EventSet and CcNumberActiveWorkerThreads > 1, the iteration
exits with CcQueueThrottle set and the state otherwise unchanged, so the
entry stays at the head of its queue; an EventSet is removed and executed
only when at most one worker is active, and executing it sets DropThrottle,
which makes the top of the next loop iteration clear CcQueueThrottle. -/
theorem c7_eventset_throttle :
    (∀ (st : WorkerState) (w : WorkItem) (rest : List WorkItem),
      st.express = w :: rest → w.fn = CcFunctionKind.eventSet →
      1 < st.activeThreads →
      workerPick st = WorkerStep.halt { st with queueThrottle := true }) ∧
    (∀ (st : WorkerState) (w : WorkItem) (rest : List WorkItem),
      st.express = [] → st.regular = w :: rest →
      w.fn = CcFunctionKind.eventSet → 1 < st.activeThreads →
      workerPick st = WorkerStep.halt { st with queueThrottle := true }) ∧
    (∀ (st st1 : WorkerState) (w : WorkItem),
      workerPick st = WorkerStep.next st1 w → w.fn = CcFunctionKind.eventSet →
      st.activeThreads ≤ 1 ∧ st1.dropThrottle = true) ∧
    (∀ st : WorkerState, st.dropThrottle = true →
      (throttleRelease st).queueThrottle = false ∧
      (throttleRelease st).dropThrottle = false) := by
  refine ⟨?_, ?_, ?_, ?_⟩
  · intro st w rest hE hfn hact
    rcases st with ⟨es, rs, a, qt, dt, ro⟩
    simp only at hE
    subst hE
    unfold workerPick
    dsimp only
    rw [if_pos ⟨hfn, hact⟩]
  · intro st w rest hE hR hfn hact
    rcases st with ⟨es, rs, a, qt, dt, ro⟩
    simp only at hE hR
    subst hE
    subst hR
    unfold workerPick
    dsimp only
    rw [if_pos ⟨hfn, hact⟩]
  · intro st st1 w h hfn
    rcases st with ⟨es, rs, a, qt, dt, ro⟩
    rcases es with _ | ⟨v, rest⟩
    · rcases rs with _ | ⟨v2, rest2⟩
      · unfold workerPick at h
        cases h
      · unfold workerPick at h
        dsimp only at h
        split at h
        · cases h
        · cases h
          rename_i hneg
          refine ⟨?_, by simp [executeEntry, hfn]⟩
          show a ≤ 1
          by_contra hgt
          exact hneg ⟨hfn, by omega⟩
    · unfold workerPick at h
      dsimp only at h
      split at h
      · cases h
      · cases h
        rename_i hneg
        refine ⟨?_, by simp [executeEntry, hfn]⟩
        show a ≤ 1
        by_contra hgt
        exact hneg ⟨hfn, by omega⟩
  · intro st hdt
    unfold throttleRelease
    rw [if_pos hdt]
    exact ⟨rfl, rfl⟩

/-- Worker state of the C7 witness: a barrier entry at the head of the
express queue with two active workers. -/
def stC7 : WorkerState :=
  { express := [barrierItem], regular := [], activeThreads := 2
    queueThrottle := false, dropThrottle := false, rescanOk := false }

theorem c7_eventset_throttle_witness :
    workerPick stC7 = WorkerStep.halt { stC7 with queueThrottle := true } :=
  c7_eventset_throttle.1 stC7 barrierItem [] rfl rfl (by decide)

end LazyRite
